import Mathlib

/-!
# Race Prophet — verification of the webhook reconciliation core

Shallow embedding of `src/backend/webhook_handler.py` and the parts of
`src/backend/database.py` it drives (token storage, training log upsert,
pending-prediction store, race-result store), together with proofs about
the matching pipeline.

Modelling conventions:
* Python floats are modelled as `ℚ`; Python ints as `ℤ`.
* `datetime.date` values are modelled as proleptic-Gregorian day ordinals
  (`ℤ`), exactly Python's `date.toordinal` order; `timedelta(days=n)` is
  `+ n`.  `toOrdinal` below is the `date.toordinal` formula.
* `datetime.strptime(s, "%Y-%m-%d")` is `parseDate`, which accepts the
  ten-character ISO form `YYYY-MM-DD` and validates the calendar day,
  returning `none` where Python raises `ValueError`.
* The database is modelled as in-memory lists of rows; encryption of the
  stored tokens and the SHA-256 athlete pseudonymisation are abstracted
  to plain injective encodings (no claim concerns their cryptography).
  The connection pool and the Fernet key are assumed available (the
  `if not pool` / `if not get_fernet()` no-op guards are taken in their
  configured state).
* A Python `ZeroDivisionError` (reachable in the matching loop) is
  modelled by `Except Unit`; `.error ()` is the raised exception.
-/

set_option autoImplicit false

deriving instance DecidableEq for Except

namespace RaceProphet

/-! ## Calendar dates (`datetime.date` as proleptic-Gregorian ordinals) -/

def isLeapYear (y : ℕ) : Bool :=
  (y % 4 = 0 && y % 100 ≠ 0) || y % 400 = 0

def daysInMonth (y m : ℕ) : ℕ :=
  if m = 2 then (if isLeapYear y then 29 else 28)
  else if m = 4 ∨ m = 6 ∨ m = 9 ∨ m = 11 then 30
  else 31

/-- Days in the months of year `y` strictly before month `m`. -/
def daysBeforeMonth (y m : ℕ) : ℕ :=
  (List.range (m - 1)).foldl (fun acc i => acc + daysInMonth y (i + 1)) 0

/-- Python's `date.toordinal`: day 1 is 0001-01-01. -/
def toOrdinal (y m d : ℕ) : ℤ :=
  ((y : ℤ) - 1) * 365 + ((y : ℤ) - 1) / 4 - ((y : ℤ) - 1) / 100
    + ((y : ℤ) - 1) / 400 + (daysBeforeMonth y m : ℤ) + (d : ℤ)

def isDigit (c : Char) : Bool := '0' ≤ c && c ≤ '9'

def digitVal (c : Char) : ℕ := c.toNat - 48

/-- Python's `s[:10]`. -/
def take10 (s : String) : String := String.mk (s.toList.take 10)

/-- `datetime.strptime(s, "%Y-%m-%d").date()`, `none` where Python raises
`ValueError`/`TypeError`. -/
def parseDate (s : String) : Option ℤ :=
  match s.toList with
  | [y1, y2, y3, y4, c1, m1, m2, c2, d1, d2] =>
    if c1 = '-' && c2 = '-' && ([y1, y2, y3, y4, m1, m2, d1, d2].all isDigit) then
      let y := 1000 * digitVal y1 + 100 * digitVal y2 + 10 * digitVal y3 + digitVal y4
      let m := 10 * digitVal m1 + digitVal m2
      let d := 10 * digitVal d1 + digitVal d2
      if 1 ≤ y ∧ 1 ≤ m ∧ m ≤ 12 ∧ 1 ≤ d ∧ d ≤ daysInMonth y m then
        some (toOrdinal y m d)
      else none
    else none
  | _ => none

/-- Python's builtin `abs` on a rational (an executable form of `|·|`). -/
def ratAbs (x : ℚ) : ℚ := if x < 0 then -x else x

/-! ## Data model -/

/-- `database.hash_athlete_id`, with the salted SHA-256 truncation
abstracted as an injective encoding (no claim concerns the hash itself). -/
def hash_athlete_id (athlete_id : ℤ) : String := "h:" ++ toString athlete_id

/-- A row of `athlete_tokens` (decrypted view, as `get_tokens` returns it). -/
structure Tokens where
  access_token : String
  refresh_token : String
  expires_at : ℤ
deriving DecidableEq, Repr

/-- The JSON body of a successful upstream token-refresh response. -/
structure RefreshData where
  access_token : String
  refresh_token : String
  expires_at : ℤ
deriving DecidableEq, Repr

/-- The upstream activity JSON, fields accessed by the handler; `none`
models an absent key (`dict.get`). -/
structure Activity where
  type : Option String
  distance : Option ℚ
  moving_time : Option ℤ
  start_date : Option String
  total_elevation_gain : Option ℚ
  elapsed_time : Option ℤ
  average_heartrate : Option ℚ
  max_heartrate : Option ℚ
  workout_type : Option ℤ
  suffer_score : Option ℤ
  id : Option ℤ
deriving DecidableEq, Repr

/-- A row of `training_log`. -/
structure LogRow where
  id : ℤ
  athlete_hash : String
  activity_date : ℤ
  distance_km : ℚ
  moving_time_seconds : ℤ
  elapsed_time_seconds : Option ℤ
  elevation_gain_m : Option ℚ
  average_heartrate : Option ℚ
  max_heartrate : Option ℚ
  workout_type : Option ℤ
  is_race : Bool
  pace_per_km_sec : Option ℚ
  suffer_score : Option ℤ
  strava_activity_id : Option ℤ
deriving DecidableEq, Repr

/-- A row of `pending_predictions`. -/
structure Prediction where
  id : ℤ
  athlete_id : ℤ
  athlete_hash : String
  snapshot_id : Option ℤ
  ref_distance_km : ℚ
  ref_time_seconds : ℤ
  ref_date : Option ℤ
  goal_distance_km : ℚ
  predicted_time_seconds : ℤ
  goal_race_name : Option String
  goal_race_date : Option ℤ
  match_window_days : ℤ
  distance_tolerance : ℚ
  status : String
  created_at : ℤ
  expires_at : ℤ
  matched_at : Option ℤ
  matched_activity_id : Option ℤ
deriving DecidableEq, Repr

/-- A row of `race_results`. -/
structure RaceResult where
  id : ℤ
  snapshot_id : Option ℤ
  athlete_hash : String
  ref_distance_km : ℚ
  ref_time_seconds : ℤ
  ref_date : Option ℤ
  goal_distance_km : ℚ
  goal_time_seconds : ℤ
  goal_date : ℤ
  goal_elevation_gain_ft : Option ℚ
  predicted_time_seconds : Option ℤ
  prediction_error_seconds : Option ℤ
  prediction_error_pct : Option ℚ
  source : String
deriving DecidableEq, Repr

/-- The persistent store (the only shared mutable resource). -/
structure Store where
  tokens : Option Tokens
  trainingLog : List LogRow
  predictions : List Prediction
  raceResults : List RaceResult
deriving DecidableEq, Repr

/-- External collaborators and clocks for one `process_activity_event`
call: the consent oracle's answer, the upstream refresh endpoint's
response (`none` = non-200), the upstream activity endpoint's response
(`none` = non-200), `time.time()` and the SQL `NOW()`. -/
structure Env where
  consent : Bool
  refreshResp : Option RefreshData
  fetchResp : Option Activity
  now : ℚ
  dbNow : ℤ
deriving DecidableEq, Repr

/-! ## Token refresher (`webhook_handler.refresh_athlete_token`) -/

/-- Result of `refresh_athlete_token`, with the credential store after the
call and counters for upstream refresh requests and credential writes. -/
structure RefreshOut where
  token : Option String
  store : Store
  refreshCalls : ℕ
  tokenWrites : ℕ
deriving DecidableEq, Repr

def refresh_athlete_token (env : Env) (st : Store) : RefreshOut :=
  match st.tokens with
  | none => ⟨none, st, 0, 0⟩
  | some t =>
    if (t.expires_at : ℚ) > env.now + 300 then
      ⟨some t.access_token, st, 0, 0⟩
    else
      match env.refreshResp with
      | none => ⟨none, st, 1, 0⟩
      | some d =>
        ⟨some d.access_token,
         { st with tokens := some ⟨d.access_token, d.refresh_token, d.expires_at⟩ },
         1, 1⟩

/-! ## Training log (`database.log_activity`) -/

/-- The `UNIQUE(athlete_hash, strava_activity_id)` conflict test.  SQL
`NULL` keys never conflict. -/
def logKeyConflict (h : String) (aid : Option ℤ) (r : LogRow) : Bool :=
  r.athlete_hash = h &&
    match aid, r.strava_activity_id with
    | some a, some b => a = b
    | _, _ => false

/-- Fresh `SERIAL` id for `training_log`. -/
def freshLogId (log : List LogRow) : ℤ :=
  (log.map LogRow.id).foldr max 0 + 1

structure LogResult where
  logId : Option ℤ
  log : List LogRow
deriving DecidableEq, Repr

/-- `database.log_activity`: consent gate, validation, then the
`INSERT ... ON CONFLICT (athlete_hash, strava_activity_id) DO UPDATE`.
The `DO UPDATE SET` list overwrites exactly the columns the SQL names
(`activity_date`, `suffer_score`, `created_at` and the key are not in
that list). -/
def log_activity (consent : Bool) (athlete_id : ℤ) (a : Activity)
    (log : List LogRow) : LogResult :=
  if consent = false then ⟨none, log⟩
  else
    let h := hash_athlete_id athlete_id
    let dist_km := (a.distance.getD 0) / 1000
    if dist_km ≤ 0 then ⟨none, log⟩
    else
      let moving_time := a.moving_time.getD 0
      let pace : Option ℚ := some ((moving_time : ℚ) / dist_km)
      match parseDate (take10 (a.start_date.getD "")) with
      | none => ⟨none, log⟩
      | some activity_date =>
        match log.find? (logKeyConflict h a.id) with
        | some r0 =>
          ⟨some r0.id,
           log.map fun r =>
             if logKeyConflict h a.id r then
               { r with
                 distance_km := dist_km
                 moving_time_seconds := moving_time
                 elapsed_time_seconds := a.elapsed_time
                 elevation_gain_m := a.total_elevation_gain
                 average_heartrate := a.average_heartrate
                 max_heartrate := a.max_heartrate
                 workout_type := a.workout_type
                 is_race := a.workout_type = some 1
                 pace_per_km_sec := pace }
             else r⟩
        | none =>
          let nid := freshLogId log
          ⟨some nid,
           log ++ [{ id := nid
                     athlete_hash := h
                     activity_date := activity_date
                     distance_km := dist_km
                     moving_time_seconds := moving_time
                     elapsed_time_seconds := a.elapsed_time
                     elevation_gain_m := a.total_elevation_gain
                     average_heartrate := a.average_heartrate
                     max_heartrate := a.max_heartrate
                     workout_type := a.workout_type
                     is_race := a.workout_type = some 1
                     pace_per_km_sec := pace
                     suffer_score := a.suffer_score
                     strava_activity_id := a.id }]⟩

/-! ## Pending prediction store (`database.py`) -/

/-- The `WHERE` clause of `get_pending_predictions`. -/
def pendingFilter (athlete_id dbNow : ℤ) (p : Prediction) : Bool :=
  p.athlete_id = athlete_id && p.status = "pending" && dbNow < p.expires_at

def insertByCreatedDesc (p : Prediction) : List Prediction → List Prediction
  | [] => [p]
  | q :: qs =>
    if q.created_at < p.created_at then p :: q :: qs
    else q :: insertByCreatedDesc p qs

/-- `ORDER BY created_at DESC`. -/
def sortByCreatedDesc : List Prediction → List Prediction
  | [] => []
  | p :: ps => insertByCreatedDesc p (sortByCreatedDesc ps)

/-- `database.get_pending_predictions`. -/
def get_pending_predictions (preds : List Prediction) (athlete_id dbNow : ℤ) :
    List Prediction :=
  sortByCreatedDesc (preds.filter (pendingFilter athlete_id dbNow))

/-- The row update of `database.match_prediction`: `UPDATE ... WHERE id = $1`
(note: no status guard in the SQL). -/
def matchUpdate (prediction_id activity_id dbNow : ℤ) (p : Prediction) : Prediction :=
  if p.id = prediction_id then
    { p with status := "matched", matched_at := some dbNow,
             matched_activity_id := some activity_id }
  else p

/-- `database.match_prediction`. -/
def match_prediction (preds : List Prediction) (prediction_id activity_id dbNow : ℤ) :
    List Prediction :=
  preds.map (matchUpdate prediction_id activity_id dbNow)

/-- The row update of `database.expire_old_predictions`:
`SET status = 'expired' WHERE status = 'pending' AND expires_at < NOW()`. -/
def expireUpdate (dbNow : ℤ) (p : Prediction) : Prediction :=
  if p.status = "pending" ∧ p.expires_at < dbNow then { p with status := "expired" }
  else p

/-- `database.expire_old_predictions`. -/
def expire_old_predictions (preds : List Prediction) (dbNow : ℤ) : List Prediction :=
  preds.map (expireUpdate dbNow)

/-! ## Race result store (`database.store_race_result`) -/

def freshRaceResultId (rrs : List RaceResult) : ℤ :=
  (rrs.map RaceResult.id).foldr max 0 + 1

/-- `database.store_race_result` (the `goal_date` string has already been
parsed by the caller; it is passed here as the parsed date). -/
def store_race_result (consent : Bool) (athlete_id : ℤ) (snapshot_id : Option ℤ)
    (ref_distance_km : ℚ) (ref_time_seconds : ℤ) (ref_date : Option ℤ)
    (goal_distance_km : ℚ) (goal_time_seconds : ℤ) (goal_date : ℤ)
    (goal_elevation_gain_ft : Option ℚ) (predicted_time_seconds : Option ℤ)
    (source : String) (rrs : List RaceResult) : Option ℤ × List RaceResult :=
  if consent = false then (none, rrs)
  else
    let err : Option ℤ × Option ℚ :=
      match predicted_time_seconds with
      | some p =>
        if p ≠ 0 ∧ goal_time_seconds ≠ 0 then
          (some (p - goal_time_seconds),
           some (((p - goal_time_seconds : ℤ) : ℚ) / (goal_time_seconds : ℚ) * 100))
        else (none, none)
      | none => (none, none)
    let nid := freshRaceResultId rrs
    (some nid,
     rrs ++ [{ id := nid
               snapshot_id := snapshot_id
               athlete_hash := hash_athlete_id athlete_id
               ref_distance_km := ref_distance_km
               ref_time_seconds := ref_time_seconds
               ref_date := ref_date
               goal_distance_km := goal_distance_km
               goal_time_seconds := goal_time_seconds
               goal_date := goal_date
               goal_elevation_gain_ft := goal_elevation_gain_ft
               predicted_time_seconds := predicted_time_seconds
               prediction_error_seconds := err.1
               prediction_error_pct := err.2
               source := source }])

/-! ## The matching loop (`webhook_handler.process_activity_event`, lines 121-135) -/

/-- Line 125: `if dist_km <= 0 or abs(dist_km - goal_km) / goal_km > tolerance`.
`.ok true` means the prediction is skipped (`continue`); the division is
evaluated only when `dist_km > 0`, and raises `ZeroDivisionError`
(`.error ()`) when `goal_km = 0`. -/
def distanceSkip (dist_km goal_km tolerance : ℚ) : Except Unit Bool :=
  if dist_km ≤ 0 then .ok true
  else if goal_km = 0 then .error ()
  else .ok (decide (ratAbs (dist_km - goal_km) / goal_km > tolerance))

/-- Lines 129-135: the date-window check; `true` means the prediction is
skipped (`continue`). -/
def dateSkip (activity_date : ℤ) (p : Prediction) : Bool :=
  match p.goal_race_date with
  | none => false
  | some race_date =>
    let earliest := race_date - 1
    let latest := race_date + p.match_window_days
    !(decide (earliest ≤ activity_date) && decide (activity_date ≤ latest))

/-- The `for pred in pending` loop body of lines 121-135, returning the
first prediction surviving both filters (the source `return`s inside the
loop immediately after a match). -/
def matchScan (dist_km : ℚ) (activity_date : ℤ) :
    List Prediction → Except Unit (Option Prediction)
  | [] => .ok none
  | p :: rest =>
    match distanceSkip dist_km p.goal_distance_km p.distance_tolerance with
    | .error e => .error e
    | .ok true => matchScan dist_km activity_date rest
    | .ok false =>
      if dateSkip activity_date p then matchScan dist_km activity_date rest
      else .ok (some p)

/-! ## The orchestrator (`webhook_handler.process_activity_event`) -/

/-- The `result` dict built by `process_activity_event`; keys set only in
the matched branch are `Option`-valued. -/
structure Outcome where
  athlete_id : ℤ
  activity_id : ℤ
  action : String
  logged : Bool
  reason : String
  prediction_id : Option ℤ
  race_result_id : Option ℤ
  goal_distance_km : Option ℚ
  predicted_seconds : Option ℤ
  actual_seconds : Option ℤ
  error_seconds : Option ℤ
  is_race : Option Bool
  race_name : Option (Option String)
deriving DecidableEq, Repr

def initOutcome (athlete_id activity_id : ℤ) : Outcome :=
  { athlete_id := athlete_id
    activity_id := activity_id
    action := "skipped"
    logged := false
    reason := ""
    prediction_id := none
    race_result_id := none
    goal_distance_km := none
    predicted_seconds := none
    actual_seconds := none
    error_seconds := none
    is_race := none
    race_name := none }

/-- Side-effect counters for one `process_activity_event` call. -/
structure Trace where
  refreshCalls : ℕ
  fetchCalls : ℕ
  tokenWrites : ℕ
  logWrites : ℕ
  raceResultWrites : ℕ
  matchUpdates : ℕ
deriving DecidableEq, Repr

def Trace.zero : Trace := ⟨0, 0, 0, 0, 0, 0⟩

structure ProcOut where
  outcome : Outcome
  store : Store
  trace : Trace
deriving DecidableEq, Repr

/-- Steps 2 (lines 105-173) of `process_activity_event`: derive the raw
activity fields, parse the date, list pending predictions, scan them, and
commit the first surviving match. -/
def matchingPhase (env : Env) (st : Store) (athlete_id activity_id : ℤ)
    (activity : Activity) (result1 : Outcome) (tr : Trace) : Except Unit ProcOut :=
  let dist_km := (activity.distance.getD 0) / 1000
  let time_seconds := activity.moving_time.getD 0
  let activity_date_str := take10 (activity.start_date.getD "")
  let is_race := decide (activity.workout_type = some 1)
  match parseDate activity_date_str with
  | none => .ok ⟨result1, st, tr⟩
  | some activity_date =>
    let pending := get_pending_predictions st.predictions athlete_id env.dbNow
    if pending = [] then .ok ⟨result1, st, tr⟩
    else
      match matchScan dist_km activity_date pending with
      | .error e => .error e
      | .ok none => .ok ⟨result1, st, tr⟩
      | .ok (some pred) =>
        let rr := store_race_result env.consent athlete_id pred.snapshot_id
          pred.ref_distance_km pred.ref_time_seconds pred.ref_date
          dist_km time_seconds activity_date
          (some ((activity.total_elevation_gain.getD 0) * (3281 / 1000)))
          (some pred.predicted_time_seconds) "webhook" st.raceResults
        let preds' := match_prediction st.predictions pred.id activity_id env.dbNow
        let error_seconds := pred.predicted_time_seconds - time_seconds
        .ok ⟨{ result1 with
               action := "matched"
               prediction_id := some pred.id
               race_result_id := rr.1
               goal_distance_km := some pred.goal_distance_km
               predicted_seconds := some pred.predicted_time_seconds
               actual_seconds := some time_seconds
               error_seconds := some error_seconds
               is_race := some is_race
               race_name := some pred.goal_race_name },
             { st with predictions := preds', raceResults := rr.2 },
             { tr with raceResultWrites := tr.raceResultWrites + 1,
                       matchUpdates := tr.matchUpdates + 1 }⟩

/-- `webhook_handler.process_activity_event`, lines 63-173. -/
def process_activity_event (env : Env) (st : Store) (athlete_id activity_id : ℤ) :
    Except Unit ProcOut :=
  let result0 := initOutcome athlete_id activity_id
  if env.consent = false then
    .ok ⟨{ result0 with reason := "not opted in" }, st, Trace.zero⟩
  else
    let r := refresh_athlete_token env st
    let tr1 : Trace := { Trace.zero with refreshCalls := r.refreshCalls,
                                          tokenWrites := r.tokenWrites }
    match r.token with
    | none => .ok ⟨{ result0 with reason := "token refresh failed" }, r.store, tr1⟩
    | some access_token =>
      if access_token = "" then
        .ok ⟨{ result0 with reason := "token refresh failed" }, r.store, tr1⟩
      else
        let tr2 := { tr1 with fetchCalls := 1 }
        match env.fetchResp with
        | none => .ok ⟨{ result0 with reason := "activity fetch failed" }, r.store, tr2⟩
        | some activity =>
          if activity.type ≠ some "Run" then
            .ok ⟨{ result0 with reason := "not a run" }, r.store, tr2⟩
          else
            let lr := log_activity env.consent athlete_id activity r.store.trainingLog
            let st1 := { r.store with trainingLog := lr.log }
            let tr3 := { tr2 with logWrites := if lr.logId.isSome then 1 else 0 }
            let logTruthy := match lr.logId with
              | some i => decide (i ≠ 0)
              | none => false
            let result1 := { result0 with
                             logged := lr.logId.isSome
                             action := if logTruthy then "logged" else "skipped" }
            matchingPhase env st1 athlete_id activity_id activity result1 tr3

/-! ## Derived specification predicates (defined from the source filters) -/

/-- A prediction satisfies both the distance-tolerance filter and the
date-window filter for the given activity facts. -/
def passesFilters (dist_km : ℚ) (activity_date : ℤ) (p : Prediction) : Prop :=
  distanceSkip dist_km p.goal_distance_km p.distance_tolerance = .ok false ∧
  dateSkip activity_date p = false

/-- A prediction is skipped (`continue`) by the loop: either the distance
check skips it, or the distance check passes and the date window skips it. -/
def skippedByFilters (dist_km : ℚ) (activity_date : ℤ) (p : Prediction) : Prop :=
  distanceSkip dist_km p.goal_distance_km p.distance_tolerance = .ok true ∨
  (distanceSkip dist_km p.goal_distance_km p.distance_tolerance = .ok false ∧
   dateSkip activity_date p = true)

/-! ## Fixtures for concrete witnesses and counterexamples -/

def tokGood : Tokens := ⟨"acc", "ref", 10000⟩

/-- A 10 km run on 2024-05-01, external id 777. -/
def actRun : Activity :=
  { type := some "Run", distance := some 10000, moving_time := some 2400,
    start_date := some "2024-05-01T07:00:00Z", total_elevation_gain := some 100,
    elapsed_time := some 2500, average_heartrate := some 150, max_heartrate := some 180,
    workout_type := some 1, suffer_score := some 55, id := some 777 }

/-- The same run with an unparseable start date. -/
def actBadDate : Activity := { actRun with start_date := some "" }

/-- The same run with zero distance. -/
def actZeroDist : Activity := { actRun with distance := some 0 }

/-- A second delivery of activity 777 after the athlete edited it:
different date, distance, times and suffer score. -/
def actEdited : Activity :=
  { type := some "Run", distance := some 6000, moving_time := some 1500,
    start_date := some "2024-02-02T08:00:00Z", total_elevation_gain := some 42,
    elapsed_time := some 1600, average_heartrate := some 140, max_heartrate := some 170,
    workout_type := some 0, suffer_score := some 66, id := some 777 }

/-- The first delivery of activity 777, dated 2024-01-01, suffer score 55. -/
def actFirst : Activity :=
  { type := some "Run", distance := some 5000, moving_time := some 1400,
    start_date := some "2024-01-01T08:00:00Z", total_elevation_gain := some 10,
    elapsed_time := some 1450, average_heartrate := some 130, max_heartrate := some 160,
    workout_type := some 1, suffer_score := some 55, id := some 777 }

/-- A pending 10 km prediction whose goal race is 2024-05-01, window 3. -/
def pGood : Prediction :=
  { id := 2, athlete_id := 7, athlete_hash := "h:7", snapshot_id := none,
    ref_distance_km := 5, ref_time_seconds := 1200, ref_date := none,
    goal_distance_km := 10, predicted_time_seconds := 2500,
    goal_race_name := some "Spring 10K", goal_race_date := some (toOrdinal 2024 5 1),
    match_window_days := 3, distance_tolerance := 15/100, status := "pending",
    created_at := 5, expires_at := 500, matched_at := none, matched_activity_id := none }

/-- An older pending prediction that also fits the same activity. -/
def pOlder : Prediction := { pGood with id := 1, created_at := 3 }

/-- A newer pending prediction with goal distance 0 (the division-guard bug). -/
def pZero : Prediction :=
  { pGood with id := 3, goal_distance_km := 0, goal_race_date := none, created_at := 9 }

/-- An already matched prediction. -/
def pMatched : Prediction :=
  { pGood with
    id := 4, status := "matched", matched_at := some 40,
    matched_activity_id := some 555, created_at := 2 }

/-- An already expired prediction. -/
def pExpired : Prediction :=
  { pGood with id := 5, status := "expired", created_at := 1 }

def envGood : Env :=
  { consent := true, refreshResp := none, fetchResp := some actRun, now := 100, dbNow := 50 }

def stOnePending : Store := ⟨some tokGood, [], [pGood], []⟩

/-- Two pending predictions both fitting the 2024-05-01 10 km run,
newest (`pGood`) first in recency order. -/
def stTwoPending : Store := ⟨some tokGood, [], [pGood, pOlder], []⟩

/-- A zero-goal prediction newer than a perfectly matching one. -/
def stZeroFirst : Store := ⟨some tokGood, [], [pZero, pGood], []⟩

/-- A pending prediction with no goal race date (distance filter only). -/
def pNoDate : Prediction := { pGood with goal_race_date := none }

def stNoDate : Store := ⟨some tokGood, [], [pNoDate], []⟩

/-- Delivery of the run whose start date is unparseable. -/
def envBadDate : Env := { envGood with fetchResp := some actBadDate }

/-- Delivery of the run with zero distance. -/
def envZeroDist : Env := { envGood with fetchResp := some actZeroDist }

/-- A clock at 0, a failing refresh endpoint. -/
def envT0 : Env :=
  { consent := true, refreshResp := none, fetchResp := some actRun, now := 0, dbNow := 50 }

def tok400 : Tokens := ⟨"acc", "ref", 400⟩

def tok100 : Tokens := ⟨"acc", "ref", 100⟩

def stTok400 : Store := ⟨some tok400, [], [], []⟩

def stTok100 : Store := ⟨some tok100, [], [], []⟩

/-! ## Helper lemmas -/

theorem ratAbs_eq_abs (x : ℚ) : ratAbs x = |x| := by
  unfold ratAbs
  rcases lt_or_le x 0 with h | h
  · simp [abs_of_neg h, h]
  · simp [abs_of_nonneg h, not_lt.mpr h]

/-- A credential comfortably inside the grace window is returned as is. -/
theorem refresh_valid (env : Env) (st : Store) (t : Tokens)
    (ht : st.tokens = some t) (hexp : (t.expires_at : ℚ) > env.now + 300) :
    refresh_athlete_token env st = ⟨some t.access_token, st, 0, 0⟩ := by
  simp [refresh_athlete_token, ht, hexp]

/-- Under consent, a valid nonempty token and a fetched run, the pipeline
reduces to logging followed by the matching phase. -/
theorem process_run_path (env : Env) (st : Store) (athlete_id activity_id : ℤ)
    (t : Tokens) (a : Activity)
    (hc : env.consent = true) (ht : st.tokens = some t)
    (hexp : (t.expires_at : ℚ) > env.now + 300) (hne : t.access_token ≠ "")
    (hf : env.fetchResp = some a) (hrun : a.type = some "Run") :
    process_activity_event env st athlete_id activity_id =
      (let lr := log_activity env.consent athlete_id a st.trainingLog
       let logTruthy := match lr.logId with
         | some i => decide (i ≠ 0)
         | none => false
       matchingPhase env { st with trainingLog := lr.log } athlete_id activity_id a
         { initOutcome athlete_id activity_id with
           logged := lr.logId.isSome
           action := if logTruthy then "logged" else "skipped" }
         { Trace.zero with fetchCalls := 1,
                           logWrites := if lr.logId.isSome then 1 else 0 }) := by
  have hr := refresh_valid env st t ht hexp
  simp [process_activity_event, hr, hc, hne, hf, hrun, Trace.zero]

/-- The matching phase when the activity date does not parse. -/
theorem matchingPhase_noparse (env : Env) (st : Store) (athlete_id activity_id : ℤ)
    (a : Activity) (r1 : Outcome) (tr : Trace)
    (hd : parseDate (take10 (a.start_date.getD "")) = none) :
    matchingPhase env st athlete_id activity_id a r1 tr = .ok ⟨r1, st, tr⟩ := by
  simp [matchingPhase, hd]

/-- The matching phase when the scan finds no surviving prediction. -/
theorem matchingPhase_nomatch (env : Env) (st : Store) (athlete_id activity_id : ℤ)
    (a : Activity) (r1 : Outcome) (tr : Trace) (day : ℤ)
    (hd : parseDate (take10 (a.start_date.getD "")) = some day)
    (hscan : matchScan ((a.distance.getD 0) / 1000) day
      (get_pending_predictions st.predictions athlete_id env.dbNow) = .ok none) :
    matchingPhase env st athlete_id activity_id a r1 tr = .ok ⟨r1, st, tr⟩ := by
  rcases hp : get_pending_predictions st.predictions athlete_id env.dbNow with _ | ⟨q, qs⟩
  · simp [matchingPhase, hd, hp]
  · rw [hp] at hscan
    simp [matchingPhase, hd, hp, hscan]

/-- The matching phase when the scan raises `ZeroDivisionError`. -/
theorem matchingPhase_raises (env : Env) (st : Store) (athlete_id activity_id : ℤ)
    (a : Activity) (r1 : Outcome) (tr : Trace) (day : ℤ)
    (hd : parseDate (take10 (a.start_date.getD "")) = some day)
    (hscan : matchScan ((a.distance.getD 0) / 1000) day
      (get_pending_predictions st.predictions athlete_id env.dbNow) = .error ()) :
    matchingPhase env st athlete_id activity_id a r1 tr = .error () := by
  rcases hp : get_pending_predictions st.predictions athlete_id env.dbNow with _ | ⟨q, qs⟩
  · rw [hp] at hscan
    simp [matchScan] at hscan
  · rw [hp] at hscan
    simp [matchingPhase, hd, hp, hscan]

/-- The matching phase when the scan finds a surviving prediction. -/
theorem matchingPhase_match (env : Env) (st : Store) (athlete_id activity_id : ℤ)
    (a : Activity) (r1 : Outcome) (tr : Trace) (day : ℤ) (p : Prediction)
    (hd : parseDate (take10 (a.start_date.getD "")) = some day)
    (hscan : matchScan ((a.distance.getD 0) / 1000) day
      (get_pending_predictions st.predictions athlete_id env.dbNow) = .ok (some p)) :
    matchingPhase env st athlete_id activity_id a r1 tr =
      (let dist_km := (a.distance.getD 0) / 1000
       let time_seconds := a.moving_time.getD 0
       let rr := store_race_result env.consent athlete_id p.snapshot_id
         p.ref_distance_km p.ref_time_seconds p.ref_date
         dist_km time_seconds day
         (some ((a.total_elevation_gain.getD 0) * (3281 / 1000)))
         (some p.predicted_time_seconds) "webhook" st.raceResults
       .ok ⟨{ r1 with
              action := "matched"
              prediction_id := some p.id
              race_result_id := rr.1
              goal_distance_km := some p.goal_distance_km
              predicted_seconds := some p.predicted_time_seconds
              actual_seconds := some time_seconds
              error_seconds := some (p.predicted_time_seconds - time_seconds)
              is_race := some (decide (a.workout_type = some 1))
              race_name := some p.goal_race_name },
            { st with
              predictions := match_prediction st.predictions p.id activity_id env.dbNow,
              raceResults := rr.2 },
            { tr with raceResultWrites := tr.raceResultWrites + 1,
                      matchUpdates := tr.matchUpdates + 1 }⟩) := by
  rcases hp : get_pending_predictions st.predictions athlete_id env.dbNow with _ | ⟨q, qs⟩
  · rw [hp] at hscan
    simp [matchScan] at hscan
  · rw [hp] at hscan
    simp [matchingPhase, hd, hp, hscan]

/-- The scan returns the first prediction surviving both filters. -/
theorem matchScan_found (dist_km : ℚ) (day : ℤ) (l₁ : List Prediction)
    (p : Prediction) (l₂ : List Prediction)
    (h₁ : ∀ q ∈ l₁, skippedByFilters dist_km day q)
    (hp : passesFilters dist_km day p) :
    matchScan dist_km day (l₁ ++ p :: l₂) = .ok (some p) := by
  induction l₁ with
  | nil => simp [matchScan, hp.1, hp.2]
  | cons q l ih =>
    rcases h₁ q (List.mem_cons_self q l) with h | ⟨h1, h2⟩
    · simpa [matchScan, h] using ih fun r hr => h₁ r (List.mem_cons_of_mem q hr)
    · simpa [matchScan, h1, h2] using ih fun r hr => h₁ r (List.mem_cons_of_mem q hr)

/-- The scan finds nothing when every prediction is skipped. -/
theorem matchScan_none (dist_km : ℚ) (day : ℤ) (l : List Prediction)
    (h : ∀ q ∈ l, skippedByFilters dist_km day q) :
    matchScan dist_km day l = .ok none := by
  induction l with
  | nil => rfl
  | cons q l ih =>
    rcases h q (List.mem_cons_self q l) with h1 | ⟨h1, h2⟩
    · simpa [matchScan, h1] using ih fun r hr => h r (List.mem_cons_of_mem q hr)
    · simpa [matchScan, h1, h2] using ih fun r hr => h r (List.mem_cons_of_mem q hr)

/-! ## Claims -/

/-- C10: the Training Log layer enforces the consent gate itself: with the
consent oracle reporting false (also when no consent row exists),
`log_activity` returns no id and leaves the training log untouched, even
when invoked directly. -/
theorem c10_log_consent_gate (athlete_id : ℤ) (a : Activity) (log : List LogRow) :
    log_activity false athlete_id a log = ⟨none, log⟩ := by
  simp [log_activity]

/-- C6: with consent false, `process_activity_event` returns the skipped
outcome with reason "not opted in", makes zero refresh and fetch calls,
and leaves every store unchanged. -/
theorem c6_consent_short_circuit (env : Env) (st : Store) (athlete_id activity_id : ℤ)
    (h : env.consent = false) :
    process_activity_event env st athlete_id activity_id =
      .ok ⟨{ initOutcome athlete_id activity_id with reason := "not opted in" },
           st, Trace.zero⟩ := by
  simp [process_activity_event, h]

/-- Witness for C6 at a concrete non-consenting athlete. -/
theorem c6_consent_witness :
    process_activity_event { envGood with consent := false } stOnePending 7 777 =
      .ok ⟨{ initOutcome 7 777 with reason := "not opted in" },
           stOnePending, Trace.zero⟩ :=
  c6_consent_short_circuit { envGood with consent := false } stOnePending 7 777 rfl

/-- C7: with a stored credential, `refresh_athlete_token` returns the
stored access token unchanged with zero refresh calls when the expiry is
strictly more than 300 seconds in the future, and makes exactly one
refresh call when the expiry is within or past that window. -/
theorem c7_grace_window (env : Env) (st : Store) (t : Tokens)
    (ht : st.tokens = some t) :
    ((t.expires_at : ℚ) > env.now + 300 →
      refresh_athlete_token env st = ⟨some t.access_token, st, 0, 0⟩) ∧
    ((t.expires_at : ℚ) ≤ env.now + 300 →
      (refresh_athlete_token env st).refreshCalls = 1) := by
  constructor
  · intro hexp
    exact refresh_valid env st t ht hexp
  · intro hexp
    have hnot : ¬((t.expires_at : ℚ) > env.now + 300) := not_lt.mpr hexp
    rcases hresp : env.refreshResp with _ | d
    · simp [refresh_athlete_token, ht, hnot, hresp]
    · simp [refresh_athlete_token, ht, hnot, hresp]

/-- Witness for C7: expiry now + 400 is returned unchanged, expiry
now + 100 triggers exactly one refresh call. -/
theorem c7_grace_window_witness :
    refresh_athlete_token envT0 stTok400 = ⟨some "acc", stTok400, 0, 0⟩ ∧
    (refresh_athlete_token envT0 stTok100).refreshCalls = 1 :=
  ⟨(c7_grace_window envT0 stTok400 tok400 rfl).1 (by norm_num [tok400, envT0]),
   (c7_grace_window envT0 stTok100 tok100 rfl).2 (by norm_num [tok100, envT0])⟩

/-- C8: a non-success refresh response yields a failure with the stored
credential untouched and no token write; in general every call makes at
most one credential write, and only on a successful refresh. -/
theorem c8_refresh_failure_no_write (env : Env) (st : Store) (t : Tokens)
    (ht : st.tokens = some t) (hexp : (t.expires_at : ℚ) ≤ env.now + 300)
    (hfail : env.refreshResp = none) :
    refresh_athlete_token env st = ⟨none, st, 1, 0⟩ ∧
    (∀ (env' : Env) (st' : Store),
      (refresh_athlete_token env' st').tokenWrites ≤ 1 ∧
      ((refresh_athlete_token env' st').tokenWrites = 1 →
        ∃ d, env'.refreshResp = some d ∧
          (refresh_athlete_token env' st').token = some d.access_token ∧
          (refresh_athlete_token env' st').store =
            { st' with tokens := some ⟨d.access_token, d.refresh_token, d.expires_at⟩ })) := by
  constructor
  · have hnot : ¬((t.expires_at : ℚ) > env.now + 300) := not_lt.mpr hexp
    simp [refresh_athlete_token, ht, hnot, hfail]
  · intro env' st'
    rcases h1 : st'.tokens with _ | t'
    · simp [refresh_athlete_token, h1]
    · by_cases h2 : (t'.expires_at : ℚ) > env'.now + 300
      · simp [refresh_athlete_token, h1, h2]
      · rcases h3 : env'.refreshResp with _ | d
        · simp [refresh_athlete_token, h1, h2, h3]
        · refine ⟨by simp [refresh_athlete_token, h1, h2, h3], fun _ => ⟨d, rfl, ?_, ?_⟩⟩
          · simp [refresh_athlete_token, h1, h2, h3]
          · simp [refresh_athlete_token, h1, h2, h3]

/-- Witness for C8 at a concrete failing refresh. -/
theorem c8_refresh_failure_witness :
    refresh_athlete_token envT0 stTok100 = ⟨none, stTok100, 1, 0⟩ ∧
    (refresh_athlete_token envT0 stTok100).tokenWrites ≤ 1 := by
  have h := c8_refresh_failure_no_write envT0 stTok100 tok100 rfl
    (by norm_num [tok100, envT0]) rfl
  exact ⟨h.1, (h.2 envT0 stTok100).1⟩

/-- C2 is false as stated: `match_prediction`'s UPDATE carries no status
guard (`WHERE id = $1` only), so calling it with an expired prediction's
id overwrites the terminal status 'expired' with 'matched'. -/
theorem c2_match_overwrites_expired :
    pExpired.status = "expired" ∧
    (match_prediction [pExpired] 5 999 60).map Prediction.status = ["matched"] := by
  constructor
  · rfl
  · rfl

/-- C2 (amended): `expire_old_predictions` never changes a prediction
whose status is 'matched' or 'expired'; `match_prediction` preserves a
'matched' status, and leaves any row whose id differs from its argument
completely unchanged.  (The remaining gap, shown by the counterexample,
is `match_prediction` invoked with an expired prediction's own id.) -/
theorem c2_monotone_amended (preds : List Prediction)
    (dbNow prediction_id activity_id : ℤ) (p : Prediction) (hp : p ∈ preds)
    (hstat : p.status = "matched" ∨ p.status = "expired") :
    expireUpdate dbNow p = p ∧
    p ∈ expire_old_predictions preds dbNow ∧
    (p.status = "matched" →
      (matchUpdate prediction_id activity_id dbNow p).status = "matched") ∧
    (p.id ≠ prediction_id →
      matchUpdate prediction_id activity_id dbNow p = p ∧
      p ∈ match_prediction preds prediction_id activity_id dbNow) := by
  have hexp : expireUpdate dbNow p = p := by
    unfold expireUpdate
    rcases hstat with h | h <;>
      simp [h, show ("matched" : String) ≠ "pending" from by decide,
        show ("expired" : String) ≠ "pending" from by decide]
  refine ⟨hexp, ?_, ?_, ?_⟩
  · have hm := List.mem_map_of_mem (expireUpdate dbNow) hp
    rwa [hexp] at hm
  · intro h
    unfold matchUpdate
    by_cases hid : p.id = prediction_id <;> simp [hid, h]
  · intro hid
    have hmu : matchUpdate prediction_id activity_id dbNow p = p := by
      unfold matchUpdate
      simp [hid]
    refine ⟨hmu, ?_⟩
    have hm := List.mem_map_of_mem (matchUpdate prediction_id activity_id dbNow) hp
    rwa [hmu] at hm

/-- Witness for C2 (amended) at a concrete matched prediction. -/
theorem c2_monotone_witness :
    expireUpdate 60 pMatched = pMatched ∧
    pMatched ∈ expire_old_predictions [pMatched] 60 ∧
    (pMatched.status = "matched" →
      (matchUpdate 9 999 60 pMatched).status = "matched") ∧
    (pMatched.id ≠ 9 →
      matchUpdate 9 999 60 pMatched = pMatched ∧
      pMatched ∈ match_prediction [pMatched] 9 999 60) :=
  c2_monotone_amended [pMatched] 60 9 999 pMatched
    (List.mem_singleton.mpr rfl) (Or.inl rfl)

/-- C5: the claim describes a guard the code does not have.  Line 125
checks the activity's distance (`dist_km <= 0`), not the prediction's
goal distance: with a positive activity distance and a pending prediction
whose goal distance is 0, the loop evaluates
`abs(dist_km - goal_km) / goal_km` and raises `ZeroDivisionError` instead
of skipping; and a negative goal distance is not skipped at all (the
ratio is negative, hence within tolerance). -/
theorem c5_distance_guard_bug :
    matchScan ((actRun.distance.getD 0) / 1000) 739007 [pZero] = .error () ∧
    distanceSkip ((actRun.distance.getD 0) / 1000) pZero.goal_distance_km
      pZero.distance_tolerance = .error () ∧
    distanceSkip 5 (-5) (15/100) = .ok false := by
  refine ⟨?_, ?_, ?_⟩ <;>
    norm_num [matchScan, distanceSkip, ratAbs, actRun, pZero, pGood]

/-- C3: with a positive goal distance `g` and tolerance 0.15, the distance
check passes iff `|d - g| / g ≤ 0.15` (inclusive) and skips iff the ratio
strictly exceeds 0.15; with a goal race date `r` and window `w`, the date
check passes iff the activity date lies in the inclusive window
`[r - 1, r + w]` and skips otherwise. -/
theorem c3_tolerance_and_window (d g : ℚ) (day r w : ℤ) (p : Prediction)
    (hg : 0 < g) (hr : p.goal_race_date = some r) (hw : p.match_window_days = w) :
    (distanceSkip d g (15/100) = .ok false ↔ |d - g| / g ≤ 15/100) ∧
    (distanceSkip d g (15/100) = .ok true ↔ 15/100 < |d - g| / g) ∧
    (dateSkip day p = false ↔ r - 1 ≤ day ∧ day ≤ r + w) ∧
    (dateSkip day p = true ↔ ¬(r - 1 ≤ day ∧ day ≤ r + w)) := by
  have hg' : g ≠ 0 := ne_of_gt hg
  have hbig : d ≤ 0 → (15/100 : ℚ) < |d - g| / g := by
    intro hd
    have h1 : |d - g| = g - d := by
      rw [abs_sub_comm]
      exact abs_of_nonneg (by linarith)
    have h2 : (1 : ℚ) ≤ (g - d) / g := (one_le_div hg).mpr (by linarith)
    rw [h1]
    linarith
  have hdates : (dateSkip day p = false ↔ r - 1 ≤ day ∧ day ≤ r + w) ∧
      (dateSkip day p = true ↔ ¬(r - 1 ≤ day ∧ day ≤ r + w)) := by
    constructor
    · simp [dateSkip, hr, hw]
    · simp [dateSkip, hr, hw]
      omega
  refine ⟨?_, ?_, hdates.1, hdates.2⟩
  · by_cases hd : d ≤ 0
    · simp only [distanceSkip, if_pos hd]
      constructor
      · intro h
        injection h with h'
        cases h'
      · intro h
        exact absurd h (not_le.mpr (hbig hd))
    · simp only [distanceSkip, if_neg hd, if_neg hg', ratAbs_eq_abs]
      simp [not_lt]
  · by_cases hd : d ≤ 0
    · simp only [distanceSkip, if_pos hd]
      simp [hbig hd]
    · simp only [distanceSkip, if_neg hd, if_neg hg', ratAbs_eq_abs]
      simp

/-- Witness for C3: goal 10 km: activity 11.5 km (exactly 15%) passes,
11.51 km fails; goal race date 2024-05-01, window 3: activity dates
2024-04-30 and 2024-05-04 pass, 2024-05-05 fails. -/
theorem c3_boundaries_witness :
    distanceSkip (23/2) 10 (15/100) = .ok false ∧
    distanceSkip (1151/100) 10 (15/100) = .ok true ∧
    dateSkip (toOrdinal 2024 4 30) pGood = false ∧
    dateSkip (toOrdinal 2024 5 4) pGood = false ∧
    dateSkip (toOrdinal 2024 5 5) pGood = true := by
  have habs1 : |(23/2 : ℚ) - 10| = 3/2 := by
    rw [show (23/2 : ℚ) - 10 = 3/2 by norm_num]
    exact abs_of_nonneg (by norm_num)
  have habs2 : |(1151/100 : ℚ) - 10| = 151/100 := by
    rw [show (1151/100 : ℚ) - 10 = 151/100 by norm_num]
    exact abs_of_nonneg (by norm_num)
  have h1 := c3_tolerance_and_window (23/2) 10 (toOrdinal 2024 4 30)
    (toOrdinal 2024 5 1) 3 pGood (by norm_num) rfl rfl
  have h2 := c3_tolerance_and_window (1151/100) 10 (toOrdinal 2024 5 4)
    (toOrdinal 2024 5 1) 3 pGood (by norm_num) rfl rfl
  have h3 := c3_tolerance_and_window (1151/100) 10 (toOrdinal 2024 5 5)
    (toOrdinal 2024 5 1) 3 pGood (by norm_num) rfl rfl
  refine ⟨h1.1.mpr ?_, h2.2.1.mpr ?_, h1.2.2.1.mpr ?_, h2.2.2.1.mpr ?_,
    h3.2.2.2.mpr ?_⟩
  · rw [habs1]
    norm_num
  · rw [habs2]
    norm_num
  · constructor <;> decide
  · constructor <;> decide
  · decide

/-- C4 is false as stated: the `DO UPDATE SET` list of `log_activity`
does not include `activity_date` or `suffer_score`, so a second delivery
of activity 777 carrying the date 2024-02-02 and suffer score 66 leaves
the row with the first delivery's date 2024-01-01 and score 55 (while its
distance is overwritten to the second call's 6 km). -/
theorem c4_date_not_overwritten :
    (log_activity true 7 actEdited (log_activity true 7 actFirst []).log).log.map
      (fun r => (r.activity_date, r.suffer_score, r.distance_km)) =
      [(toOrdinal 2024 1 1, some 55, 6)] ∧
    parseDate (take10 (actEdited.start_date.getD "")) = some (toOrdinal 2024 2 2) ∧
    actEdited.suffer_score = some 66 ∧
    toOrdinal 2024 1 1 ≠ toOrdinal 2024 2 2 := by
  have hp1 : parseDate (take10 "2024-01-01T08:00:00Z") =
      some (toOrdinal 2024 1 1) := by decide
  have hp2 : parseDate (take10 "2024-02-02T08:00:00Z") =
      some (toOrdinal 2024 2 2) := by decide
  refine ⟨?_, by decide, rfl, by decide⟩
  norm_num [log_activity, hp1, hp2, actFirst, actEdited, logKeyConflict,
    freshLogId, hash_athlete_id]

/-- C4 (amended): upserting the same `(athlete, external activity id)` key
twice leaves exactly one training-log row for that key, with an unchanged
key and id; the columns named in the `DO UPDATE SET` list (distance,
moving/elapsed time, elevation, heart rates, workout type, race flag,
pace) take the second call's values, while `activity_date` and
`suffer_score` keep the first call's values. -/
theorem c4_upsert_amended (athlete_id : ℤ) (a₁ a₂ : Activity) (k day₁ day₂ : ℤ)
    (hk1 : a₁.id = some k) (hk2 : a₂.id = some k)
    (hd1 : 0 < a₁.distance.getD 0) (hd2 : 0 < a₂.distance.getD 0)
    (hp1 : parseDate (take10 (a₁.start_date.getD "")) = some day₁)
    (hp2 : parseDate (take10 (a₂.start_date.getD "")) = some day₂) :
    log_activity true athlete_id a₂ (log_activity true athlete_id a₁ []).log =
      ⟨some 1,
       [{ id := 1
          athlete_hash := hash_athlete_id athlete_id
          activity_date := day₁
          distance_km := (a₂.distance.getD 0) / 1000
          moving_time_seconds := a₂.moving_time.getD 0
          elapsed_time_seconds := a₂.elapsed_time
          elevation_gain_m := a₂.total_elevation_gain
          average_heartrate := a₂.average_heartrate
          max_heartrate := a₂.max_heartrate
          workout_type := a₂.workout_type
          is_race := decide (a₂.workout_type = some 1)
          pace_per_km_sec :=
            some ((a₂.moving_time.getD 0 : ℚ) / ((a₂.distance.getD 0) / 1000))
          suffer_score := a₁.suffer_score
          strava_activity_id := some k }]⟩ := by
  have hq1 : ¬((a₁.distance.getD 0) / 1000 ≤ 0) :=
    not_le.mpr (div_pos hd1 (by norm_num))
  have hq2 : ¬((a₂.distance.getD 0) / 1000 ≤ 0) :=
    not_le.mpr (div_pos hd2 (by norm_num))
  have h1 : log_activity true athlete_id a₁ [] =
      ⟨some 1,
       [{ id := 1
          athlete_hash := hash_athlete_id athlete_id
          activity_date := day₁
          distance_km := (a₁.distance.getD 0) / 1000
          moving_time_seconds := a₁.moving_time.getD 0
          elapsed_time_seconds := a₁.elapsed_time
          elevation_gain_m := a₁.total_elevation_gain
          average_heartrate := a₁.average_heartrate
          max_heartrate := a₁.max_heartrate
          workout_type := a₁.workout_type
          is_race := decide (a₁.workout_type = some 1)
          pace_per_km_sec :=
            some ((a₁.moving_time.getD 0 : ℚ) / ((a₁.distance.getD 0) / 1000))
          suffer_score := a₁.suffer_score
          strava_activity_id := some k }]⟩ := by
    simp [log_activity, hq1, hp1, hk1, freshLogId]
  rw [h1]
  simp [log_activity, hq2, hp2, hk2, logKeyConflict]

/-- Witness for C4 (amended) at the two concrete deliveries of
activity 777. -/
theorem c4_upsert_witness :
    log_activity true 7 actEdited (log_activity true 7 actFirst []).log =
      ⟨some 1,
       [{ id := 1
          athlete_hash := hash_athlete_id 7
          activity_date := toOrdinal 2024 1 1
          distance_km := 6
          moving_time_seconds := 1500
          elapsed_time_seconds := some 1600
          elevation_gain_m := some 42
          average_heartrate := some 140
          max_heartrate := some 170
          workout_type := some 0
          is_race := false
          pace_per_km_sec := some 250
          suffer_score := some 55
          strava_activity_id := some 777 }]⟩ := by
  have h := c4_upsert_amended 7 actFirst actEdited 777
    (toOrdinal 2024 1 1) (toOrdinal 2024 2 2) rfl rfl
    (by norm_num [actFirst]) (by norm_num [actEdited]) (by decide) (by decide)
  rw [h]
  norm_num [actEdited, actFirst]

/-- C1 is false as stated: with a newer zero-goal prediction ahead of a
prediction that satisfies both filters, the scan raises
`ZeroDivisionError` and no match is committed, instead of matching the
first satisfying prediction. -/
theorem c1_zero_goal_blocks_greedy_match :
    pGood ∈ get_pending_predictions stZeroFirst.predictions 7 envGood.dbNow ∧
    passesFilters ((actRun.distance.getD 0) / 1000) 739007 pGood ∧
    parseDate (take10 (actRun.start_date.getD "")) = some 739007 ∧
    process_activity_event envGood stZeroFirst 7 777 = .error () := by
  have hord : toOrdinal 2024 5 1 = 739007 := by decide
  have hsplit : get_pending_predictions stZeroFirst.predictions 7 envGood.dbNow =
      [pZero, pGood] := by
    norm_num [get_pending_predictions, pendingFilter, sortByCreatedDesc,
      insertByCreatedDesc, stZeroFirst, pZero, pGood, envGood, List.filter]
  have hpass : passesFilters ((actRun.distance.getD 0) / 1000) 739007 pGood := by
    constructor
    · norm_num [distanceSkip, ratAbs, pGood, actRun]
    · norm_num [dateSkip, pGood, hord]
  have hd : parseDate (take10 (actRun.start_date.getD "")) = some 739007 := by decide
  refine ⟨by rw [hsplit]; exact List.mem_cons_of_mem _ (List.mem_cons_self _ _),
    hpass, hd, ?_⟩
  have hr := refresh_valid envGood stZeroFirst tokGood rfl
    (by norm_num [tokGood, envGood])
  rcases hL : log_activity true 7 actRun stZeroFirst.trainingLog
    with ⟨logId, log'⟩
  have hpath : process_activity_event envGood stZeroFirst 7 777 =
      matchingPhase envGood { stZeroFirst with trainingLog := log' } 7 777 actRun
        { initOutcome 7 777 with
          logged := logId.isSome
          action := if (match logId with
            | some i => decide (i ≠ 0)
            | none => false) then "logged" else "skipped" }
        { Trace.zero with fetchCalls := 1,
                          logWrites := if logId.isSome then 1 else 0 } := by
    simp [process_activity_event, hr, hL, Trace.zero,
      show envGood.consent = true from rfl,
      show envGood.fetchResp = some actRun from rfl,
      show actRun.type = some "Run" from rfl,
      show tokGood.access_token ≠ "" from by decide]
  rw [hpath]
  apply matchingPhase_raises
  · exact hd
  · have : get_pending_predictions
        ({ stZeroFirst with trainingLog := log' } : Store).predictions 7
        envGood.dbNow = [pZero, pGood] := hsplit
    rw [this]
    norm_num [matchScan, distanceSkip, actRun, pZero, pGood]

/-- C1 (amended): under consent, a valid token and a fetched run with a
parseable date, if every prediction before `p` in the pending order is
skipped by the filters and none of them has a zero goal distance, and `p`
satisfies both filters, then `process_activity_event` matches exactly
`p`, commits exactly one status transition, and every other prediction is
untouched; if every pending prediction is skipped, no match is committed
and the outcome is the logged/skipped result.  (The zero-goal proviso is
forced by the division-guard bug shown in the counterexample.) -/
theorem c1_greedy_first_match (env : Env) (st : Store) (athlete_id activity_id : ℤ)
    (t : Tokens) (a : Activity) (day : ℤ)
    (hc : env.consent = true) (ht : st.tokens = some t)
    (hexp : (t.expires_at : ℚ) > env.now + 300) (hne : t.access_token ≠ "")
    (hf : env.fetchResp = some a) (hrun : a.type = some "Run")
    (hd : parseDate (take10 (a.start_date.getD "")) = some day) :
    (∀ l₁ p l₂,
      get_pending_predictions st.predictions athlete_id env.dbNow = l₁ ++ p :: l₂ →
      (∀ q ∈ l₁, skippedByFilters ((a.distance.getD 0) / 1000) day q) →
      passesFilters ((a.distance.getD 0) / 1000) day p →
      ∃ out, process_activity_event env st athlete_id activity_id = .ok out ∧
        out.outcome.action = "matched" ∧
        out.outcome.prediction_id = some p.id ∧
        out.store.predictions =
          match_prediction st.predictions p.id activity_id env.dbNow ∧
        (∀ q ∈ st.predictions, q.id ≠ p.id → q ∈ out.store.predictions) ∧
        out.trace.matchUpdates = 1) ∧
    ((∀ q ∈ get_pending_predictions st.predictions athlete_id env.dbNow,
        skippedByFilters ((a.distance.getD 0) / 1000) day q) →
      ∃ out, process_activity_event env st athlete_id activity_id = .ok out ∧
        (out.outcome.action = "logged" ∨ out.outcome.action = "skipped") ∧
        out.outcome.prediction_id = none ∧
        out.store.predictions = st.predictions ∧
        out.trace.matchUpdates = 0) := by
  have hr := refresh_valid env st t ht hexp
  rcases hL : log_activity true athlete_id a st.trainingLog with ⟨logId, log'⟩
  have hpath : process_activity_event env st athlete_id activity_id =
      matchingPhase env { st with trainingLog := log' } athlete_id activity_id a
        { initOutcome athlete_id activity_id with
          logged := logId.isSome
          action := if (match logId with
            | some i => decide (i ≠ 0)
            | none => false) then "logged" else "skipped" }
        { Trace.zero with fetchCalls := 1,
                          logWrites := if logId.isSome then 1 else 0 } := by
    simp [process_activity_event, hr, hc, hne, hf, hrun, hL, Trace.zero]
  constructor
  · intro l₁ p l₂ hsplit hskip hpass
    have hscan : matchScan ((a.distance.getD 0) / 1000) day
        (get_pending_predictions
          ({ st with trainingLog := log' } : Store).predictions athlete_id
          env.dbNow) = .ok (some p) := by
      have : get_pending_predictions
          ({ st with trainingLog := log' } : Store).predictions athlete_id
          env.dbNow = l₁ ++ p :: l₂ := hsplit
      rw [this]
      exact matchScan_found _ _ l₁ p l₂ hskip hpass
    have hmp := matchingPhase_match env { st with trainingLog := log' }
      athlete_id activity_id a
      { initOutcome athlete_id activity_id with
        logged := logId.isSome
        action := if (match logId with
          | some i => decide (i ≠ 0)
          | none => false) then "logged" else "skipped" }
      { Trace.zero with fetchCalls := 1,
                        logWrites := if logId.isSome then 1 else 0 }
      day p hd hscan
    refine ⟨_, hpath.trans hmp, rfl, rfl, rfl, ?_, rfl⟩
    intro q hq hqid
    have hmu : matchUpdate p.id activity_id env.dbNow q = q := by
      unfold matchUpdate
      simp [hqid]
    have hm := List.mem_map_of_mem (matchUpdate p.id activity_id env.dbNow) hq
    rw [hmu] at hm
    exact hm
  · intro hskipall
    have hscan : matchScan ((a.distance.getD 0) / 1000) day
        (get_pending_predictions
          ({ st with trainingLog := log' } : Store).predictions athlete_id
          env.dbNow) = .ok none :=
      matchScan_none _ _ _ hskipall
    have hmp := matchingPhase_nomatch env { st with trainingLog := log' }
      athlete_id activity_id a
      { initOutcome athlete_id activity_id with
        logged := logId.isSome
        action := if (match logId with
          | some i => decide (i ≠ 0)
          | none => false) then "logged" else "skipped" }
      { Trace.zero with fetchCalls := 1,
                        logWrites := if logId.isSome then 1 else 0 }
      day hd hscan
    refine ⟨_, hpath.trans hmp, ?_, rfl, rfl, rfl⟩
    rcases hb : (match logId with
      | some i => decide (i ≠ 0)
      | none => false : Bool) with _ | _
    · exact Or.inr (by simp [hb])
    · exact Or.inl (by simp [hb])

/-- Witness for C1 (amended): two pending predictions both fit the run;
the newer one (id 2) is matched, the older one (id 1) is untouched. -/
theorem c1_greedy_first_match_witness :
    ∃ out, process_activity_event envGood stTwoPending 7 777 = .ok out ∧
      out.outcome.action = "matched" ∧
      out.outcome.prediction_id = some 2 ∧
      out.store.predictions = match_prediction stTwoPending.predictions 2 777 50 ∧
      pOlder ∈ out.store.predictions := by
  have hord : toOrdinal 2024 5 1 = 739007 := by decide
  have hsplit : get_pending_predictions stTwoPending.predictions 7 envGood.dbNow =
      [] ++ pGood :: [pOlder] := by
    norm_num [get_pending_predictions, pendingFilter, sortByCreatedDesc,
      insertByCreatedDesc, stTwoPending, pGood, pOlder, envGood, List.filter]
  have hpass : passesFilters ((actRun.distance.getD 0) / 1000) 739007 pGood := by
    constructor
    · norm_num [distanceSkip, ratAbs, pGood, actRun]
    · norm_num [dateSkip, pGood, hord]
  obtain ⟨out, h1, h2, h3, h4, h5, _⟩ :=
    (c1_greedy_first_match envGood stTwoPending 7 777 tokGood actRun 739007
      rfl rfl (by norm_num [tokGood, envGood]) (by decide) rfl rfl (by decide)).1
      [] pGood [pOlder] hsplit (by simp) hpass
  refine ⟨out, h1, h2, h3, h4, ?_⟩
  exact h5 pOlder (List.mem_cons_of_mem _ (List.mem_cons_self _ _)) (by decide)

/-- C9 is false as stated: an activity whose start date is unparseable
fails to log *and* skips the matching phase entirely, even though a
pending prediction (with no date constraint) satisfies the distance
filter on the raw fetched fields. -/
theorem c9_bad_date_blocks_matching :
    (log_activity true 7 actBadDate stNoDate.trainingLog).logId = none ∧
    distanceSkip ((actBadDate.distance.getD 0) / 1000) pNoDate.goal_distance_km
      pNoDate.distance_tolerance = .ok false ∧
    pNoDate.goal_race_date = none ∧
    pNoDate ∈ get_pending_predictions stNoDate.predictions 7 envBadDate.dbNow ∧
    process_activity_event envBadDate stNoDate 7 777 =
      .ok ⟨{ initOutcome 7 777 with logged := false, action := "skipped" },
           stNoDate, { Trace.zero with fetchCalls := 1 }⟩ := by
  have hparse : parseDate (take10 (actBadDate.start_date.getD "")) = none := by decide
  have hlog : log_activity true 7 actBadDate stNoDate.trainingLog =
      ⟨none, stNoDate.trainingLog⟩ := by
    norm_num [log_activity, actBadDate, actRun, stNoDate, hparse,
      parseDate, take10]
  have hpend : get_pending_predictions stNoDate.predictions 7 envBadDate.dbNow =
      [pNoDate] := by
    norm_num [get_pending_predictions, pendingFilter, sortByCreatedDesc,
      insertByCreatedDesc, stNoDate, pNoDate, pGood, envBadDate, envGood,
      List.filter]
  refine ⟨by rw [hlog], by norm_num [distanceSkip, ratAbs, actBadDate, actRun,
    pNoDate, pGood], rfl, by rw [hpend]; exact List.mem_cons_self _ _, ?_⟩
  have hr := refresh_valid envBadDate stNoDate tokGood rfl
    (by norm_num [tokGood, envBadDate, envGood])
  have hpath : process_activity_event envBadDate stNoDate 7 777 =
      matchingPhase envBadDate stNoDate 7 777 actBadDate
        { initOutcome 7 777 with logged := false, action := "skipped" }
        { Trace.zero with fetchCalls := 1 } := by
    simp [process_activity_event, hr, hlog, Trace.zero,
      show envBadDate.consent = true from rfl,
      show envBadDate.fetchResp = some actBadDate from rfl,
      show actBadDate.type = some "Run" from rfl,
      show tokGood.access_token ≠ "" from by decide]
  rw [hpath]
  exact matchingPhase_noparse envBadDate stNoDate 7 777 actBadDate _ _ hparse

/-- C9 (amended): when the fetched date parses, the matching phase always
runs and its result is exactly the scan of the raw fetched fields against
the pending list — independent of whether the Training Log upsert
produced an id (which only feeds the `logged` flag); when the date does
not parse, both logging and matching are skipped (counterexample). -/
theorem c9_matching_independent_of_log (env : Env) (st : Store)
    (athlete_id activity_id : ℤ) (t : Tokens) (a : Activity) (day : ℤ)
    (hc : env.consent = true) (ht : st.tokens = some t)
    (hexp : (t.expires_at : ℚ) > env.now + 300) (hne : t.access_token ≠ "")
    (hf : env.fetchResp = some a) (hrun : a.type = some "Run")
    (hd : parseDate (take10 (a.start_date.getD "")) = some day) :
    (∀ p, matchScan ((a.distance.getD 0) / 1000) day
        (get_pending_predictions st.predictions athlete_id env.dbNow) =
        .ok (some p) →
      ∃ out, process_activity_event env st athlete_id activity_id = .ok out ∧
        out.outcome.action = "matched" ∧
        out.outcome.prediction_id = some p.id ∧
        out.outcome.actual_seconds = some (a.moving_time.getD 0) ∧
        out.outcome.logged =
          (log_activity true athlete_id a st.trainingLog).logId.isSome ∧
        out.store.predictions =
          match_prediction st.predictions p.id activity_id env.dbNow) ∧
    (matchScan ((a.distance.getD 0) / 1000) day
        (get_pending_predictions st.predictions athlete_id env.dbNow) =
        .ok none →
      ∃ out, process_activity_event env st athlete_id activity_id = .ok out ∧
        out.outcome.prediction_id = none ∧
        out.outcome.logged =
          (log_activity true athlete_id a st.trainingLog).logId.isSome ∧
        out.store.predictions = st.predictions) := by
  have hr := refresh_valid env st t ht hexp
  rcases hL : log_activity true athlete_id a st.trainingLog with ⟨logId, log'⟩
  have hpath : process_activity_event env st athlete_id activity_id =
      matchingPhase env { st with trainingLog := log' } athlete_id activity_id a
        { initOutcome athlete_id activity_id with
          logged := logId.isSome
          action := if (match logId with
            | some i => decide (i ≠ 0)
            | none => false) then "logged" else "skipped" }
        { Trace.zero with fetchCalls := 1,
                          logWrites := if logId.isSome then 1 else 0 } := by
    simp [process_activity_event, hr, hc, hne, hf, hrun, hL, Trace.zero]
  constructor
  · intro p hscan
    have hmp := matchingPhase_match env { st with trainingLog := log' }
      athlete_id activity_id a
      { initOutcome athlete_id activity_id with
        logged := logId.isSome
        action := if (match logId with
          | some i => decide (i ≠ 0)
          | none => false) then "logged" else "skipped" }
      { Trace.zero with fetchCalls := 1,
                        logWrites := if logId.isSome then 1 else 0 }
      day p hd hscan
    exact ⟨_, hpath.trans hmp, rfl, rfl, rfl, rfl, rfl⟩
  · intro hscan
    have hmp := matchingPhase_nomatch env { st with trainingLog := log' }
      athlete_id activity_id a
      { initOutcome athlete_id activity_id with
        logged := logId.isSome
        action := if (match logId with
          | some i => decide (i ≠ 0)
          | none => false) then "logged" else "skipped" }
      { Trace.zero with fetchCalls := 1,
                        logWrites := if logId.isSome then 1 else 0 }
      day hd hscan
    exact ⟨_, hpath.trans hmp, rfl, rfl, rfl⟩

/-- Witness for C9 (amended): a zero-distance run fails to log, yet the
matching phase still runs on the raw fields (every pending prediction is
scanned and skipped) and the pipeline completes normally. -/
theorem c9_matching_independent_witness :
    ∃ out, process_activity_event envZeroDist stOnePending 7 777 = .ok out ∧
      out.outcome.prediction_id = none ∧
      out.outcome.logged = false ∧
      out.store.predictions = stOnePending.predictions := by
  have hpend : get_pending_predictions stOnePending.predictions 7
      envZeroDist.dbNow = [pGood] := by
    norm_num [get_pending_predictions, pendingFilter, sortByCreatedDesc,
      insertByCreatedDesc, stOnePending, pGood, envZeroDist, envGood,
      List.filter]
  have hscan : matchScan ((actZeroDist.distance.getD 0) / 1000) 739007
      (get_pending_predictions stOnePending.predictions 7 envZeroDist.dbNow) =
      .ok none := by
    rw [hpend]
    norm_num [matchScan, distanceSkip, actZeroDist, actRun]
  have hlog : (log_activity true 7 actZeroDist stOnePending.trainingLog).logId =
      none := by
    norm_num [log_activity, actZeroDist, actRun, stOnePending]
  obtain ⟨out, h1, h2, h3, h4⟩ :=
    (c9_matching_independent_of_log envZeroDist stOnePending 7 777 tokGood
      actZeroDist 739007 rfl rfl
      (by norm_num [tokGood, envZeroDist, envGood]) (by decide) rfl rfl
      (by decide)).2 hscan
  refine ⟨out, h1, h2, ?_, h4⟩
  rw [h3, hlog]
  rfl

end RaceProphet
